import Mathlib

/-!
Verification development for the emailing-service repository
(src/config.py, src/sending_email.py, src/app.py).

The Python code is shallowly embedded: pure computations become Lean
functions, the external effects of a request (the Jinja2 template
environment and the SMTP server) are modelled as explicit "world"
records whose fields give the outcome of each effectful call, and each
Flask handler becomes a function from its request data and those worlds
to an HTTP response together with a trace of the service calls and SMTP
transmissions it performed.
-/

/-! ### Python truthiness

The source tests optional strings with `if not email`, `user_name or
username`, `if text_content:` and so on.  An absent JSON field is
`None`; both `None` and the empty string are falsy in Python. -/

/-- Python truthiness of an optional string value: `None` and `""` are
falsy, every other string is truthy. -/
def truthy : Option String → Bool
  | none => false
  | some s => !s.isEmpty

/-- Python `a and b` on optional string values: returns `b` when `a` is
truthy, otherwise returns `a` itself (short-circuit). -/
def pyAnd (a b : Option String) : Option String :=
  if truthy a then b else a

/-- Python `a or b` where `a` is an optional string and `b` a string
(`display_name = user_name or username` in `send_password_reset_email`):
returns `a`'s string when `a` is truthy, otherwise `b`. -/
def pyOr (a : Option String) (b : String) : String :=
  match a with
  | none => b
  | some s => if s.isEmpty then b else s

/-- A single apostrophe character, used inside string literals. -/
def apos : String := String.singleton (Char.ofNat 39)

/-- Python `all(x)` applied to the value of the chain
`to_email and subject and html_content` (src/app.py line 213).
When the chain evaluates to `None`, `all(None)` raises
`TypeError: 'NoneType' object is not iterable`; when it evaluates to a
string, every element is a one-character string, which is truthy, so
`all` returns `True` (also on the empty string, since `all([])` is
`True`). -/
def pyAll : Option String → Except String Bool
  | none => .error (apos ++ "NoneType" ++ apos ++ " object is not iterable")
  | some s => .ok (s.data.all fun _ => true)

/-! ### Configuration (src/config.py)

`Config` reads its fields from environment variables once at process
start; the values are immutable for the process lifetime.  We model a
configured process by a record of those values. -/

structure Config where
  MAIL_SERVER : String
  MAIL_PORT : Nat
  ADMIN_EMAIL : String
  ADMIN_PASSWORD : String
  PASSWORD_RESET_URL_BASE : String
deriving DecidableEq

/-! ### The email service object (src/sending_email.py)

`EmailService.__init__` copies the four SMTP settings out of `Config`.
No method of the class ever assigns to `self`, so the record is
immutable after construction. -/

structure EmailService where
  smtp_server : String
  smtp_port : Nat
  admin_email : String
  admin_password : String
deriving DecidableEq

/-- `EmailService.__init__`: load the SMTP configuration from `Config`. -/
def EmailService.ofConfig (cfg : Config) : EmailService :=
  { smtp_server := cfg.MAIL_SERVER
    smtp_port := cfg.MAIL_PORT
    admin_email := cfg.ADMIN_EMAIL
    admin_password := cfg.ADMIN_PASSWORD }

/-! ### MIME message composition (send_email, lines 92-104)

`send_email` builds a `MIMEMultipart('alternative')` message, sets the
`Subject`, `From` and `To` headers, attaches a plain-text part when
`text_content` is truthy, and always attaches the HTML part afterwards. -/

inductive MIMEPart where
  | text (content : String)
  | html (content : String)
deriving DecidableEq

structure MIMEMessage where
  subject : String
  fromAddr : String
  toAddr : String
  parts : List MIMEPart
deriving DecidableEq

/-- The message-construction part of `send_email`: headers from the
arguments and the service's configured sender, the optional plain-text
part attached first (only when `text_content` is truthy, per
`if text_content:`), then the HTML part. -/
def composeMessage (svc : EmailService) (to_email subject html_content : String)
    (text_content : Option String) : MIMEMessage :=
  { subject := subject
    fromAddr := svc.admin_email
    toAddr := to_email
    parts :=
      (match text_content with
       | some t => if t.isEmpty then [] else [MIMEPart.text t]
       | none => []) ++ [MIMEPart.html html_content] }

/-! ### The SMTP transmitter (send_email, lines 107-111)

The three effectful stages inside the `with smtplib.SMTP_SSL(...)`
block -- opening the SSL connection, `server.login`, and
`server.send_message` -- are modelled by an oracle giving each stage's
outcome: `.ok ()` for success, `.error msg` for a raised exception with
message `msg`. -/

deriving instance DecidableEq for Except

structure SmtpWorld where
  connect : Except String Unit
  login : Except String Unit
  send : Except String Unit
deriving DecidableEq

/-- The body of `send_email`'s `try` block: compose the message, open
the connection, authenticate, transmit.  Any raised exception aborts the
rest of the block and propagates as `.error`. -/
def sendEmailBody (svc : EmailService) (w : SmtpWorld)
    (to_email subject html_content : String) (text_content : Option String) :
    Except String Unit := do
  let _msg := composeMessage svc to_email subject html_content text_content
  w.connect
  w.login
  w.send

/-- `EmailService.send_email` (lines 90-121): the whole body sits inside
`try ... except Exception`, so the method returns `True` exactly when
every stage succeeded and `False` when any exception was raised; the
exception is consumed by the handler and never escapes (reflected in the
plain `Bool` return type). -/
def send_email (svc : EmailService) (w : SmtpWorld)
    (to_email subject html_content : String) (text_content : Option String) : Bool :=
  match sendEmailBody svc w to_email subject html_content text_content with
  | .ok _ => true
  | .error _ => false

/-- `send_email` with the instance state threaded explicitly: the method
reads `self` but never assigns to it, so the outgoing state equals the
incoming one.  The result also carries the message composed for (and
handed to) the SMTP transmitter on this call. -/
def sendEmailSt (svc : EmailService) (w : SmtpWorld)
    (to_email subject html_content : String) (text_content : Option String) :
    (Bool × MIMEMessage) × EmailService :=
  ((send_email svc w to_email subject html_content text_content,
    composeMessage svc to_email subject html_content text_content), svc)


/-! ### The Jinja2 template environment (facade methods, lines 163-169 and 220-221)

`self.jinja_env.get_template(name)` either returns a template or raises
(`TemplateNotFound`); rendering a template with a context either returns
the HTML string or raises.  The environment is external to src/ (the
template files live outside the source), so it is modelled as an oracle
with one field per template name the facade looks up; errors carry the
exception's string form, which is what the HTTP layer's handler would
serialise. -/

/-- The context passed to `template.render(...)` by
`send_password_reset_email` (lines 164-169). -/
structure ResetContext where
  user_name : String
  username : String
  reset_url : String
  expiration_minutes : Nat
deriving DecidableEq

/-- Oracle for the two template lookups the facade performs.  A reset
template maps a `ResetContext` to rendered HTML or an error; the success
template takes only the username (line 221). -/
structure RenderWorld where
  password_reset : Except String (ResetContext → Except String String)
  password_reset_success : Except String (String → Except String String)

/-- The arguments of one invocation of `EmailService.send_email`. -/
structure SendEmailArgs where
  to_email : String
  subject : String
  html_content : String
  text_content : Option String
deriving DecidableEq

/-- Text before the greeting name in the plain-text fallback body built
inline by `send_password_reset_email` (lines 173-186). -/
def resetTextPre : String := "\n        Hello "

/-- Text between the greeting name and the reset URL in the plain-text
fallback body of `send_password_reset_email`. -/
def resetTextMid : String :=
  ",\n        \n        You requested a password reset for your Computer Networks program account.\n        \n        Please visit this link to reset your password:\n        "

/-- Text after the reset URL in the plain-text fallback body of
`send_password_reset_email`.  (The source text contains the contraction
"didn" ++ apostrophe ++ "t".) -/
def resetTextPost : String :=
  "\n        \n        This link will expire in 60 minutes for security purposes.\n        \n        If you didn" ++ apos ++ "t request this password reset, you can safely ignore this email.\n        \n        - Computer Networks Program Team\n        "

/-- The f-string plain-text body of `send_password_reset_email`,
interpolating the greeting name and the reset URL. -/
def resetTextContent (display_name reset_url : String) : String :=
  resetTextPre ++ display_name ++ resetTextMid ++ reset_url ++ resetTextPost

/-- The f-string plain-text body of `send_password_reset_success_email`
(lines 224-232), interpolating the username. -/
def successTextContent (username : String) : String :=
  "\n        Hello " ++ username ++ ",\n        \n        Your password has been successfully reset for the Computer Networks program.\n        \n        If you did not make this change, please contact support immediately.\n        \n        - Computer Networks Program Team\n        "

/-- What one facade call did: its returned value (`.error e` when an
uncaught exception with string form `e` propagated out of the method),
the contexts it passed to `template.render`, the messages for which the
SMTP transmitter was invoked, and the arguments of its calls to
`send_email`. -/
structure ResetFacadeTrace where
  result : Except String Bool
  renderedWith : List ResetContext
  smtpAttempts : List MIMEMessage
  sendCalls : List SendEmailArgs

/-- `EmailService.send_password_reset_email` (lines 123-188): compute
the greeting name with `user_name or username`, look up and render the
`password_reset.html` template (neither call is inside a `try`, so a
raised exception propagates out of the method), build the plain-text
fallback, and delegate to `send_email`. -/
def send_password_reset_email (svc : EmailService) (rw : RenderWorld) (sw : SmtpWorld)
    (to_email username reset_url : String) (user_name : Option String) :
    ResetFacadeTrace :=
  let display_name := pyOr user_name username
  let subject := "Password Reset - Computer Networks Program"
  match rw.password_reset with
  | .error e => ⟨.error e, [], [], []⟩
  | .ok template =>
    let ctx : ResetContext :=
      { user_name := display_name
        username := username
        reset_url := reset_url
        expiration_minutes := 60 }
    match template ctx with
    | .error e => ⟨.error e, [ctx], [], []⟩
    | .ok html_content =>
      let text_content := resetTextContent display_name reset_url
      let ok := send_email svc sw to_email subject html_content (some text_content)
      ⟨.ok ok, [ctx],
        [composeMessage svc to_email subject html_content (some text_content)],
        [⟨to_email, subject, html_content, some text_content⟩]⟩

/-- Trace of one `send_password_reset_success_email` call; the rendered
contexts are the usernames passed to the success template. -/
structure SuccessFacadeTrace where
  result : Except String Bool
  renderedWith : List String
  smtpAttempts : List MIMEMessage
  sendCalls : List SendEmailArgs

/-- `EmailService.send_password_reset_success_email` (lines 190-235):
look up and render `password_reset_success.html` with the username
(uncaught on failure), build the fixed-form plain-text fallback, and
delegate to `send_email`. -/
def send_password_reset_success_email (svc : EmailService) (rw : RenderWorld)
    (sw : SmtpWorld) (to_email username : String) : SuccessFacadeTrace :=
  let subject := "Password Reset Successful - Computer Networks Program"
  match rw.password_reset_success with
  | .error e => ⟨.error e, [], [], []⟩
  | .ok template =>
    match template username with
    | .error e => ⟨.error e, [username], [], []⟩
    | .ok html_content =>
      let text_content := successTextContent username
      let ok := send_email svc sw to_email subject html_content (some text_content)
      ⟨.ok ok, [username],
        [composeMessage svc to_email subject html_content (some text_content)],
        [⟨to_email, subject, html_content, some text_content⟩]⟩

/-! ### The HTTP endpoint layer (src/app.py)

Each Flask handler is a function from parsed request data (absent JSON
fields are `none`), a freshly generated token where relevant, and the
two effect worlds, to the JSON response it returns plus a trace of the
email-service activity it caused. -/

/-- A JSON response: the HTTP status code and the body fields the
handlers use (`error`, `status`, `message`, `token`), each `none` when
the field is absent from the body. -/
structure ApiResponse where
  httpStatus : Nat
  errorMsg : Option String
  statusMsg : Option String
  message : Option String
  token : Option String
deriving DecidableEq

/-- Request body of POST /api/email/send-password-reset. -/
structure ResetRequest where
  email : Option String
  username : Option String
  user_name : Option String
deriving DecidableEq

/-- One invocation of `email_service.send_password_reset_email` by the
handler, with the arguments it received. -/
structure FacadeCall where
  to_email : String
  username : String
  reset_url : String
  user_name : Option String
deriving DecidableEq

/-- Trace of one request to /api/email/send-password-reset. -/
structure ResetHandlerTrace where
  response : ApiResponse
  facadeCalls : List FacadeCall
  renderedWith : List ResetContext
  smtpAttempts : List MIMEMessage

/-- Handler `send_password_reset` (src/app.py lines 41-119).  `t` is the
value returned by `generate_reset_token()` for this request.  Validation
is `if not email or not username` (line 84), so absent and falsy fields
alike yield 400 before the service is touched; the facade call sits
inside `try ... except Exception`, whose handler answers 500 with
`str(e)` (lines 116-119). -/
def send_password_reset (cfg : Config) (rw : RenderWorld) (sw : SmtpWorld)
    (t : String) (req : ResetRequest) : ResetHandlerTrace :=
  if truthy req.email && truthy req.username then
    match req.email, req.username with
    | some email, some username =>
      let reset_token := t
      let reset_url :=
        cfg.PASSWORD_RESET_URL_BASE ++ "?token=" ++ reset_token ++ "&username=" ++ username
      let tr := send_password_reset_email (EmailService.ofConfig cfg) rw sw
        email username reset_url req.user_name
      match tr.result with
      | .ok true =>
        ⟨⟨200, none, some "sent", some "Password reset email sent successfully",
           some reset_token⟩,
         [⟨email, username, reset_url, req.user_name⟩], tr.renderedWith, tr.smtpAttempts⟩
      | .ok false =>
        ⟨⟨500, some "Failed to send email", none, none, none⟩,
         [⟨email, username, reset_url, req.user_name⟩], tr.renderedWith, tr.smtpAttempts⟩
      | .error e =>
        ⟨⟨500, some e, none, none, none⟩,
         [⟨email, username, reset_url, req.user_name⟩], tr.renderedWith, tr.smtpAttempts⟩
    | _, _ => ⟨⟨400, some "email and username are required", none, none, none⟩, [], [], []⟩
  else
    ⟨⟨400, some "email and username are required", none, none, none⟩, [], [], []⟩

/-- Request body of POST /api/email/send-reset-success. -/
structure SuccessRequest where
  email : Option String
  username : Option String
deriving DecidableEq

/-- Trace of one request to /api/email/send-reset-success; `facadeCalls`
records the `(email, username)` argument pairs passed to
`send_password_reset_success_email`. -/
structure SuccessHandlerTrace where
  response : ApiResponse
  facadeCalls : List (String × String)
  renderedWith : List String
  smtpAttempts : List MIMEMessage

/-- Handler `send_reset_success` (src/app.py lines 121-173): same
validation shape as the reset handler, then one facade call whose
uncaught exceptions are answered with 500 and `str(e)`. -/
def send_reset_success (cfg : Config) (rw : RenderWorld) (sw : SmtpWorld)
    (req : SuccessRequest) : SuccessHandlerTrace :=
  if truthy req.email && truthy req.username then
    match req.email, req.username with
    | some email, some username =>
      let tr := send_password_reset_success_email (EmailService.ofConfig cfg) rw sw
        email username
      match tr.result with
      | .ok true =>
        ⟨⟨200, none, some "sent", some "Success email sent", none⟩,
         [(email, username)], tr.renderedWith, tr.smtpAttempts⟩
      | .ok false =>
        ⟨⟨500, some "Failed to send success email", none, none, none⟩,
         [(email, username)], tr.renderedWith, tr.smtpAttempts⟩
      | .error e =>
        ⟨⟨500, some e, none, none, none⟩,
         [(email, username)], tr.renderedWith, tr.smtpAttempts⟩
    | _, _ => ⟨⟨400, some "email and username are required", none, none, none⟩, [], [], []⟩
  else
    ⟨⟨400, some "email and username are required", none, none, none⟩, [], [], []⟩

/-- Request body of POST /api/email/send-custom-email. -/
structure CustomRequest where
  to_email : Option String
  subject : Option String
  html_content : Option String
deriving DecidableEq

/-- Trace of one request to /api/email/send-custom-email; `sendCalls`
records the invocations of `email_service.send_email`. -/
structure CustomHandlerTrace where
  response : ApiResponse
  sendCalls : List SendEmailArgs
  smtpAttempts : List MIMEMessage

/-- Handler `send_custom_email` (src/app.py lines 194-224).  The
validation expression is `not all(to_email and subject and html_content)`
(line 213): evaluating `all` on the chain raises `TypeError` when the
chain's value is `None` -- caught by the handler's blanket `except`,
which answers 500 -- and returns `True` on every string value, so the
400 branch is unreachable for string-valued chains.  When validation
falls through while some field is still `None` (possible when an earlier
field is the empty string), `send_email` is invoked with a `None`
argument; constructing or serialising the message then raises inside its
`try`, so it returns `False`, no message reaches the SMTP server, and
the endpoint answers 500. -/
def send_custom_email (cfg : Config) (sw : SmtpWorld) (req : CustomRequest) :
    CustomHandlerTrace :=
  match pyAll (pyAnd (pyAnd req.to_email req.subject) req.html_content) with
  | .error e => ⟨⟨500, some e, none, none, none⟩, [], []⟩
  | .ok ok =>
    if !ok then
      ⟨⟨400, some "to_email, subject, and html_content are required", none, none, none⟩,
       [], []⟩
    else
      match req.to_email, req.subject, req.html_content with
      | some to_email, some subject, some html_content =>
        let svc := EmailService.ofConfig cfg
        let success := send_email svc sw to_email subject html_content none
        ⟨if success then
           ⟨200, none, some "sent", some "Email sent successfully", none⟩
         else ⟨500, some "Failed to send email", none, none, none⟩,
         [⟨to_email, subject, html_content, none⟩],
         [composeMessage svc to_email subject html_content none]⟩
      | _, _, _ =>
        ⟨⟨500, some "Failed to send email", none, none, none⟩, [], []⟩

/-- Request body of POST /api/email/test. -/
structure TestRequest where
  email : Option String
deriving DecidableEq

/-- Handler `test_email` (src/app.py lines 227-276):
`data.get('email', 'test@example.com')` then one `send_email` call with
fixed subject and contents. -/
def test_email (cfg : Config) (sw : SmtpWorld) (req : TestRequest) :
    CustomHandlerTrace :=
  let addr := req.email.getD "test@example.com"
  let svc := EmailService.ofConfig cfg
  let subject := "Test Email - Computer Networks Program"
  let html := "<h1>Test Email</h1><p>This is a test email from the email service.</p>"
  let text := "Test Email\n\nThis is a test email from the email service."
  let success := send_email svc sw addr subject html (some text)
  ⟨if success then ⟨200, none, some "sent", some "Test email sent", none⟩
    else ⟨500, some "Failed to send test email", none, none, none⟩,
   [⟨addr, subject, html, some text⟩],
   [composeMessage svc addr subject html (some text)]⟩

/-! ### Token generation (src/app.py lines 31-39)

`generate_reset_token` returns `secrets.token_urlsafe(32)`, i.e. the
URL-safe base64 encoding (RFC 4648 `-`/`_` alphabet, `=` padding
stripped) of 32 bytes drawn from the OS cryptographically secure random
source.  The random bytes are modelled as the function's input. -/

/-- The URL-safe base64 alphabet: index 0-25 map to `A`-`Z`, 26-51 to
`a`-`z`, 52-61 to `0`-`9`, 62 to `-` and 63 to `_`. -/
def b64Char (n : Nat) : Char :=
  if n < 26 then Char.ofNat (65 + n)
  else if n < 52 then Char.ofNat (97 + (n - 26))
  else if n < 62 then Char.ofNat (48 + (n - 52))
  else if n = 62 then Char.ofNat 45
  else Char.ofNat 95

/-- URL-safe base64 without padding: each group of three bytes becomes
four alphabet characters; a trailing group of one byte becomes two
characters and of two bytes three characters (the `=` padding that
`base64.urlsafe_b64encode` would add is stripped by `token_urlsafe`). -/
def b64urlEncodeNoPad : List Nat → List Char
  | [] => []
  | [b1] => [b64Char (b1 / 4), b64Char (b1 % 4 * 16)]
  | [b1, b2] => [b64Char (b1 / 4), b64Char (b1 % 4 * 16 + b2 / 16), b64Char (b2 % 16 * 4)]
  | b1 :: b2 :: b3 :: rest =>
      b64Char (b1 / 4) :: b64Char (b1 % 4 * 16 + b2 / 16) ::
        b64Char (b2 % 16 * 4 + b3 / 64) :: b64Char (b3 % 64) :: b64urlEncodeNoPad rest

/-- `secrets.token_urlsafe` applied to the given random bytes (each a
value below 256). -/
def token_urlsafe (randomBytes : List Nat) : String :=
  String.mk (b64urlEncodeNoPad randomBytes)

/-- `generate_reset_token()`: `secrets.token_urlsafe(32)`, applied to
the 32 bytes the secure random source produced for this call. -/
def generate_reset_token (osRandomBytes : List Nat) : String :=
  token_urlsafe osRandomBytes

/-- A character that can sit in a URL query parameter without
percent-encoding: unreserved per RFC 3986 (letters, digits, `-`, `_`,
`.`, `~`).  The token alphabet only ever uses the first four kinds. -/
def isUrlSafeChar (c : Char) : Bool :=
  c.isAlphanum || c == Char.ofNat 45 || c == Char.ofNat 95

/-! ### Concrete example values (used by witnesses and counterexamples) -/

/-- An example configuration, shaped like the defaults documented in
src/config.py. -/
def cfgEx : Config :=
  { MAIL_SERVER := "smtp.gmail.com"
    MAIL_PORT := 465
    ADMIN_EMAIL := "admin@example.com"
    ADMIN_PASSWORD := "app-password-16ch"
    PASSWORD_RESET_URL_BASE := "https://yourapp.com/reset" }

/-- An SMTP world in which connection, login and transmission all
succeed. -/
def swOk : SmtpWorld := ⟨.ok (), .ok (), .ok ()⟩

/-- An SMTP world in which opening the SSL connection raises. -/
def swConnectFail : SmtpWorld := ⟨.error "connection refused", .ok (), .ok ()⟩

/-- A render world in which both templates exist and render
successfully; the reset template embeds the greeting name so that the
rendered output depends on the context. -/
def rwOk : RenderWorld :=
  ⟨.ok fun ctx => .ok ("<html>" ++ ctx.user_name ++ "</html>"),
   .ok fun u => .ok ("<html>" ++ u ++ "</html>")⟩

/-- A render world in which both template lookups raise
(template file missing). -/
def rwLookupFail : RenderWorld :=
  ⟨.error "password_reset.html", .error "password_reset_success.html"⟩

/-- A render world in which lookups succeed but rendering raises. -/
def rwRenderFail : RenderWorld :=
  ⟨.ok fun _ => .error "undefined template variable",
   .ok fun _ => .error "undefined template variable"⟩

/-- The greeting name exactly as claim C7 words it: the `user_name`
argument whenever one was provided, otherwise `username`.  Stated from
the claim for comparison with the code's `user_name or username`
(`pyOr`); the two differ when `user_name` is provided but empty. -/
def claimGreetingName (user_name : Option String) (username : String) : String :=
  match user_name with
  | some s => s
  | none => username

/-! ### Theorems -/

/-- C1: `send_email` returns `true` if and only if every stage of its
`try` block -- composition, opening the SSL connection, authentication,
transmission -- completes without raising; any raised exception is
consumed inside the method (total `Bool`-valued function, so nothing
escapes to the caller) and yields `false`. -/
theorem send_email_true_iff_all_stages_ok (svc : EmailService) (w : SmtpWorld)
    (to_email subject html_content : String) (text_content : Option String) :
    send_email svc w to_email subject html_content text_content = true ↔
      (w.connect = .ok () ∧ w.login = .ok () ∧ w.send = .ok ()) := by
  unfold send_email sendEmailBody
  rcases w with ⟨c, l, s⟩
  rcases c with ec | uc <;> rcases l with el | ul <;> rcases s with es | us <;>
    simp [bind, Except.bind]

/-- C2 (code bug): a POST to /api/email/send-custom-email with
`to_email` missing is answered with HTTP 500 carrying the `TypeError`
text raised by `all(None)` -- not with the 400 validation response the
endpoint advertises -- though `send_email` is indeed not invoked. -/
theorem send_custom_email_missing_field_gives_500 :
    (send_custom_email cfgEx swOk ⟨none, some "Hi", some "<p>x</p>"⟩).response.httpStatus
        = 500 ∧
    (send_custom_email cfgEx swOk ⟨none, some "Hi", some "<p>x</p>"⟩).response.httpStatus
        ≠ 400 ∧
    (send_custom_email cfgEx swOk ⟨none, some "Hi", some "<p>x</p>"⟩).response.errorMsg
        = some (apos ++ "NoneType" ++ apos ++ " object is not iterable") ∧
    (send_custom_email cfgEx swOk ⟨none, some "Hi", some "<p>x</p>"⟩).sendCalls = [] ∧
    (send_custom_email cfgEx swOk ⟨none, some "Hi", some "<p>x</p>"⟩).smtpAttempts = [] :=
  ⟨rfl, by decide, rfl, rfl, rfl⟩

/-- C3: two sequential `send_email` calls with identical arguments
compose identical messages for the SMTP transmitter, and the service
state after a call equals the state before it (the method never assigns
to `self`); the SMTP outcomes `w₁`, `w₂` of the two runs may differ
without affecting composition. -/
theorem send_email_composition_deterministic (svc : EmailService)
    (w₁ w₂ : SmtpWorld) (to_email subject html_content : String)
    (text_content : Option String) :
    (sendEmailSt svc w₁ to_email subject html_content text_content).2 = svc ∧
    (sendEmailSt svc w₁ to_email subject html_content text_content).1.2 =
      (sendEmailSt (sendEmailSt svc w₁ to_email subject html_content text_content).2
          w₂ to_email subject html_content text_content).1.2 :=
  ⟨rfl, rfl⟩

/-- C5 is refuted at `text_content = some ""`: the argument is provided,
yet `if text_content:` is false on the empty string, so the composed
message has exactly one part rather than the two the claim requires. -/
theorem compose_provided_empty_text_single_part :
    (composeMessage (EmailService.ofConfig cfgEx) "a@b.com" "S" "<p>x</p>"
        (some "")).parts = [MIMEPart.html "<p>x</p>"] ∧
    (composeMessage (EmailService.ofConfig cfgEx) "a@b.com" "S" "<p>x</p>"
        (some "")).parts.length ≠ 2 :=
  ⟨rfl, by decide⟩

/-- C5 (amended): when `text_content` is falsy (absent or empty) the
composed multipart message carries exactly the HTML part; when a
non-empty `text_content` is provided it carries exactly two parts, the
plain-text part attached before the HTML part. -/
theorem compose_parts_shape (svc : EmailService)
    (to_email subject html_content : String) (text_content : Option String) :
    (truthy text_content = false →
      (composeMessage svc to_email subject html_content text_content).parts
        = [MIMEPart.html html_content]) ∧
    (∀ t, text_content = some t → t ≠ "" →
      (composeMessage svc to_email subject html_content text_content).parts
        = [MIMEPart.text t, MIMEPart.html html_content]) := by
  constructor
  · intro h
    rcases text_content with _ | t
    · simp [composeMessage]
    · simp only [truthy, Bool.not_eq_false'] at h
      simp [composeMessage, h]
  · rintro t rfl ht
    have : t.isEmpty = false := by
      rcases h : t.isEmpty with _ | _
      · rfl
      · exact absurd ((String.isEmpty_iff t).mp h) ht
    simp [composeMessage, this]

/-- Witness for the amended C5 at concrete inputs: no text part and a
non-empty text part. -/
theorem compose_parts_shape_witness :
    (composeMessage (EmailService.ofConfig cfgEx) "a@b.com" "S" "<p>x</p>" none).parts
        = [MIMEPart.html "<p>x</p>"] ∧
    (composeMessage (EmailService.ofConfig cfgEx) "a@b.com" "S" "<p>x</p>"
        (some "plain")).parts
        = [MIMEPart.text "plain", MIMEPart.html "<p>x</p>"] :=
  ⟨(compose_parts_shape (EmailService.ofConfig cfgEx) "a@b.com" "S" "<p>x</p>" none).1
      (by decide),
   (compose_parts_shape (EmailService.ofConfig cfgEx) "a@b.com" "S" "<p>x</p>"
      (some "plain")).2 "plain" rfl (by decide)⟩

/-- C4: when template lookup or rendering raises inside
`send_password_reset_email` or `send_password_reset_success_email`, the
facade does not catch it; the handler's generic `except` answers 500
with the raw error string, and the SMTP transmitter is never invoked on
that request. -/
theorem render_failure_uncaught_500_no_smtp (cfg : Config) (rw : RenderWorld)
    (sw : SmtpWorld) (t e email username : String) (user_name : Option String)
    (he : truthy (some email) = true) (hu : truthy (some username) = true) :
    (rw.password_reset = .error e →
      (send_password_reset cfg rw sw t ⟨some email, some username, user_name⟩).response
          = ⟨500, some e, none, none, none⟩ ∧
      (send_password_reset cfg rw sw t
          ⟨some email, some username, user_name⟩).smtpAttempts = []) ∧
    (∀ tmpl, rw.password_reset = .ok tmpl →
      tmpl ⟨pyOr user_name username, username,
          cfg.PASSWORD_RESET_URL_BASE ++ "?token=" ++ t ++ "&username=" ++ username, 60⟩
        = .error e →
      (send_password_reset cfg rw sw t ⟨some email, some username, user_name⟩).response
          = ⟨500, some e, none, none, none⟩ ∧
      (send_password_reset cfg rw sw t
          ⟨some email, some username, user_name⟩).smtpAttempts = []) ∧
    (rw.password_reset_success = .error e →
      (send_reset_success cfg rw sw ⟨some email, some username⟩).response
          = ⟨500, some e, none, none, none⟩ ∧
      (send_reset_success cfg rw sw ⟨some email, some username⟩).smtpAttempts = []) ∧
    (∀ tmpl, rw.password_reset_success = .ok tmpl → tmpl username = .error e →
      (send_reset_success cfg rw sw ⟨some email, some username⟩).response
          = ⟨500, some e, none, none, none⟩ ∧
      (send_reset_success cfg rw sw ⟨some email, some username⟩).smtpAttempts = []) := by
  refine ⟨?_, ?_, ?_, ?_⟩
  · intro hr
    simp [send_password_reset, send_password_reset_email, he, hu, hr]
  · intro tmpl hT hR
    simp [send_password_reset, send_password_reset_email, he, hu, hT, hR]
  · intro hr
    simp [send_reset_success, send_password_reset_success_email, he, hu, hr]
  · intro tmpl hT hR
    simp [send_reset_success, send_password_reset_success_email, he, hu, hT, hR]

/-- Witness for C4: a missing reset template file surfaces as 500 with
the raw error on the reset endpoint, and a failing render of the success
template does the same on the success endpoint; neither touches SMTP. -/
theorem render_failure_uncaught_500_no_smtp_witness :
    ((send_password_reset cfgEx rwLookupFail swOk "TOK"
        ⟨some "a@b.com", some "jdoe", none⟩).response
        = ⟨500, some "password_reset.html", none, none, none⟩ ∧
      (send_password_reset cfgEx rwLookupFail swOk "TOK"
        ⟨some "a@b.com", some "jdoe", none⟩).smtpAttempts = []) ∧
    ((send_reset_success cfgEx rwRenderFail swOk
        ⟨some "a@b.com", some "jdoe"⟩).response
        = ⟨500, some "undefined template variable", none, none, none⟩ ∧
      (send_reset_success cfgEx rwRenderFail swOk
        ⟨some "a@b.com", some "jdoe"⟩).smtpAttempts = []) :=
  ⟨(render_failure_uncaught_500_no_smtp cfgEx rwLookupFail swOk "TOK"
      "password_reset.html" "a@b.com" "jdoe" none (by decide) (by decide)).1 rfl,
   (render_failure_uncaught_500_no_smtp cfgEx rwRenderFail swOk "TOK"
      "undefined template variable" "a@b.com" "jdoe" none (by decide)
      (by decide)).2.2.2 (fun _ => .error "undefined template variable") rfl rfl⟩

/-- C7 is refuted at `user_name = some ""`: the code computes the
greeting with Python `or`, so a provided-but-empty display name falls
back to the username, while the claim as stated would render with the
provided empty string. -/
theorem reset_greeting_not_as_claimed :
    ((send_password_reset_email (EmailService.ofConfig cfgEx) rwOk swOk
        "a@b.com" "jdoe" "https://x/reset" (some "")).renderedWith.map
          ResetContext.user_name = ["jdoe"]) ∧
    ["jdoe"] ≠ [claimGreetingName (some "") "jdoe"] :=
  ⟨rfl, by decide⟩

/-- C7 (amended): `send_password_reset_email` renders the template with
context `user_name = (user_name if provided and non-empty else
username)`, the given `username` and `reset_url`, and
`expiration_minutes = 60`; the subject is the fixed reset subject; the
plain-text fallback contains the greeting name and the literal
`reset_url`; and the method delegates to `send_email` with that subject,
the rendered HTML and the fallback text. -/
theorem send_password_reset_email_spec (svc : EmailService) (rw : RenderWorld)
    (sw : SmtpWorld) (to_email username reset_url : String)
    (user_name : Option String) (tmpl : ResetContext → Except String String)
    (html : String) (hT : rw.password_reset = .ok tmpl)
    (hR : tmpl ⟨pyOr user_name username, username, reset_url, 60⟩ = .ok html) :
    (send_password_reset_email svc rw sw to_email username reset_url
        user_name).renderedWith
      = [⟨pyOr user_name username, username, reset_url, 60⟩] ∧
    (send_password_reset_email svc rw sw to_email username reset_url
        user_name).sendCalls
      = [⟨to_email, "Password Reset - Computer Networks Program", html,
          some (resetTextContent (pyOr user_name username) reset_url)⟩] ∧
    (∃ a b, resetTextContent (pyOr user_name username) reset_url
        = a ++ pyOr user_name username ++ b) ∧
    (∃ a b, resetTextContent (pyOr user_name username) reset_url
        = a ++ reset_url ++ b) := by
  refine ⟨?_, ?_, ?_, ?_⟩
  · simp [send_password_reset_email, hT, hR]
  · simp [send_password_reset_email, hT, hR]
  · exact ⟨resetTextPre, resetTextMid ++ reset_url ++ resetTextPost, by
      simp [resetTextContent, String.append_assoc]⟩
  · exact ⟨resetTextPre ++ pyOr user_name username ++ resetTextMid, resetTextPost, by
      simp [resetTextContent, String.append_assoc]⟩

/-- Witness for the amended C7: the test-vector call of the spec
(`to = "a@b.com"`, `username = "jdoe"`, no display name) renders the
greeting "jdoe", uses the fixed subject, and its fallback text contains
the literal reset URL. -/
theorem send_password_reset_email_spec_witness :
    (send_password_reset_email (EmailService.ofConfig cfgEx) rwOk swOk
        "a@b.com" "jdoe" "https://x/reset" none).renderedWith
      = [⟨"jdoe", "jdoe", "https://x/reset", 60⟩] ∧
    (send_password_reset_email (EmailService.ofConfig cfgEx) rwOk swOk
        "a@b.com" "jdoe" "https://x/reset" none).sendCalls
      = [⟨"a@b.com", "Password Reset - Computer Networks Program",
          "<html>jdoe</html>", some (resetTextContent "jdoe" "https://x/reset")⟩] ∧
    (∃ a b, resetTextContent "jdoe" "https://x/reset" = a ++ "jdoe" ++ b) ∧
    (∃ a b, resetTextContent "jdoe" "https://x/reset" = a ++ "https://x/reset" ++ b) :=
  send_password_reset_email_spec (EmailService.ofConfig cfgEx) rwOk swOk
    "a@b.com" "jdoe" "https://x/reset" none
    (fun ctx => .ok ("<html>" ++ ctx.user_name ++ "</html>"))
    "<html>jdoe</html>" rfl rfl

/-- C8: whenever a POST to /api/email/send-password-reset with `email`
and `username` present is answered 200, the `reset_url` handed to the
facade is exactly the configured base followed by
`?token=` ++ t ++ `&username=` ++ username for the token `t` generated
for this request, and the response body's `token` field is that same
`t`. -/
theorem reset_endpoint_url_and_token (cfg : Config) (rw : RenderWorld)
    (sw : SmtpWorld) (t email username : String) (user_name : Option String)
    (h200 : (send_password_reset cfg rw sw t
        ⟨some email, some username, user_name⟩).response.httpStatus = 200) :
    (send_password_reset cfg rw sw t
        ⟨some email, some username, user_name⟩).facadeCalls
      = [⟨email, username,
          cfg.PASSWORD_RESET_URL_BASE ++ "?token=" ++ t ++ "&username=" ++ username,
          user_name⟩] ∧
    (send_password_reset cfg rw sw t
        ⟨some email, some username, user_name⟩).response.token = some t := by
  cases hv : (truthy (some email) && truthy (some username))
  · simp [send_password_reset, hv] at h200
  · rcases hres : (send_password_reset_email (EmailService.ofConfig cfg) rw sw email
        username
        (cfg.PASSWORD_RESET_URL_BASE ++ "?token=" ++ t ++ "&username=" ++ username)
        user_name).result with e | b
    · simp [send_password_reset, hv, hres] at h200
    · rcases b with _ | _
      · simp [send_password_reset, hv, hres] at h200
      · simp [send_password_reset, hv, hres]

/-- Witness for C8: a concrete request that is answered 200, with the
facade receiving the assembled URL and the body echoing the token. -/
theorem reset_endpoint_url_and_token_witness :
    (send_password_reset cfgEx rwOk swOk "TOK-123"
        ⟨some "a@b.com", some "jdoe", none⟩).response.httpStatus = 200 ∧
    ((send_password_reset cfgEx rwOk swOk "TOK-123"
        ⟨some "a@b.com", some "jdoe", none⟩).facadeCalls
      = [⟨"a@b.com", "jdoe",
          "https://yourapp.com/reset" ++ "?token=" ++ "TOK-123" ++ "&username=" ++ "jdoe",
          none⟩] ∧
     (send_password_reset cfgEx rwOk swOk "TOK-123"
        ⟨some "a@b.com", some "jdoe", none⟩).response.token = some "TOK-123") :=
  ⟨rfl, reset_endpoint_url_and_token cfgEx rwOk swOk "TOK-123" "a@b.com" "jdoe" none rfl⟩

/-- C9: on the send-password-reset and send-reset-success endpoints, a
required field that is absent or falsy (for example present but equal to
the empty string) yields 400 with the validation error message, and the
email service is never called -- no facade call and no SMTP activity. -/
theorem empty_required_field_like_missing (cfg : Config) (rw : RenderWorld)
    (sw : SmtpWorld) (t : String) (email username user_name : Option String)
    (h : truthy email = false ∨ truthy username = false) :
    ((send_password_reset cfg rw sw t ⟨email, username, user_name⟩).response
        = ⟨400, some "email and username are required", none, none, none⟩ ∧
      (send_password_reset cfg rw sw t ⟨email, username, user_name⟩).facadeCalls = [] ∧
      (send_password_reset cfg rw sw t ⟨email, username, user_name⟩).smtpAttempts
        = []) ∧
    ((send_reset_success cfg rw sw ⟨email, username⟩).response
        = ⟨400, some "email and username are required", none, none, none⟩ ∧
      (send_reset_success cfg rw sw ⟨email, username⟩).facadeCalls = [] ∧
      (send_reset_success cfg rw sw ⟨email, username⟩).smtpAttempts = []) := by
  have hb : (truthy email && truthy username) = false := by
    rcases h with h | h <;> simp [h]
  simp [send_password_reset, send_reset_success, hb]

/-- Witness for C9: `email` present but empty is rejected exactly like a
missing field on both endpoints. -/
theorem empty_required_field_like_missing_witness :
    (truthy (some "") = false ∨ truthy (some "jdoe") = false) ∧
    ((send_password_reset cfgEx rwOk swOk "TOK"
        ⟨some "", some "jdoe", none⟩).response
        = ⟨400, some "email and username are required", none, none, none⟩ ∧
      (send_password_reset cfgEx rwOk swOk "TOK"
        ⟨some "", some "jdoe", none⟩).facadeCalls = [] ∧
      (send_password_reset cfgEx rwOk swOk "TOK"
        ⟨some "", some "jdoe", none⟩).smtpAttempts = []) ∧
    ((send_reset_success cfgEx rwOk swOk ⟨some "", some "jdoe"⟩).response
        = ⟨400, some "email and username are required", none, none, none⟩ ∧
      (send_reset_success cfgEx rwOk swOk ⟨some "", some "jdoe"⟩).facadeCalls = [] ∧
      (send_reset_success cfgEx rwOk swOk ⟨some "", some "jdoe"⟩).smtpAttempts = []) :=
  ⟨Or.inl (by decide),
   (empty_required_field_like_missing cfgEx rwOk swOk "TOK" (some "") (some "jdoe")
      none (Or.inl (by decide))).1,
   (empty_required_field_like_missing cfgEx rwOk swOk "TOK" (some "") (some "jdoe")
      none (Or.inl (by decide))).2⟩

/-- Every message the reset facade hands to the SMTP transmitter carries
the service's configured sender address in its From header. -/
theorem resetFacade_from_admin (svc : EmailService) (rw : RenderWorld)
    (sw : SmtpWorld) (to_email username reset_url : String)
    (user_name : Option String) :
    ∀ m ∈ (send_password_reset_email svc rw sw to_email username reset_url
        user_name).smtpAttempts, m.fromAddr = svc.admin_email := by
  rcases hT : rw.password_reset with e | tmpl
  · simp [send_password_reset_email, hT]
  · rcases hR : tmpl ⟨pyOr user_name username, username, reset_url, 60⟩ with e | html
    · simp [send_password_reset_email, hT, hR]
    · simp [send_password_reset_email, hT, hR, composeMessage]

/-- Every message the success facade hands to the SMTP transmitter
carries the service's configured sender address in its From header. -/
theorem successFacade_from_admin (svc : EmailService) (rw : RenderWorld)
    (sw : SmtpWorld) (to_email username : String) :
    ∀ m ∈ (send_password_reset_success_email svc rw sw to_email
        username).smtpAttempts, m.fromAddr = svc.admin_email := by
  rcases hT : rw.password_reset_success with e | tmpl
  · simp [send_password_reset_success_email, hT]
  · rcases hR : tmpl username with e | html
    · simp [send_password_reset_success_email, hT, hR]
    · simp [send_password_reset_success_email, hT, hR, composeMessage]

/-- C10: on every endpoint -- password reset, reset success, custom
email, test email -- every message for which the SMTP transmitter is
invoked has the process-wide configured `ADMIN_EMAIL` as its From
header, for every request body. -/
theorem sender_always_admin_email (cfg : Config) (rw : RenderWorld) (sw : SmtpWorld)
    (t : String) (r1 : ResetRequest) (r2 : SuccessRequest) (r3 : CustomRequest)
    (r4 : TestRequest) :
    (∀ m ∈ (send_password_reset cfg rw sw t r1).smtpAttempts,
        m.fromAddr = cfg.ADMIN_EMAIL) ∧
    (∀ m ∈ (send_reset_success cfg rw sw r2).smtpAttempts,
        m.fromAddr = cfg.ADMIN_EMAIL) ∧
    (∀ m ∈ (send_custom_email cfg sw r3).smtpAttempts,
        m.fromAddr = cfg.ADMIN_EMAIL) ∧
    (∀ m ∈ (test_email cfg sw r4).smtpAttempts, m.fromAddr = cfg.ADMIN_EMAIL) := by
  refine ⟨?_, ?_, ?_, ?_⟩
  · rcases r1 with ⟨oe, ou, oun⟩
    cases hv : (truthy oe && truthy ou)
    · simp [send_password_reset, hv]
    · rcases oe with _ | email
      · simp [truthy] at hv
      · rcases ou with _ | username
        · simp [truthy] at hv
        · rcases hres : (send_password_reset_email (EmailService.ofConfig cfg) rw sw
              email username
              (cfg.PASSWORD_RESET_URL_BASE ++ "?token=" ++ t ++ "&username=" ++ username)
              oun).result with e | b
          · intro m hm
            refine resetFacade_from_admin (EmailService.ofConfig cfg) rw sw
              email username
              (cfg.PASSWORD_RESET_URL_BASE ++ "?token=" ++ t ++ "&username=" ++ username)
              oun m ?_
            simpa [send_password_reset, hv, hres] using hm
          · rcases b with _ | _ <;>
            · intro m hm
              refine resetFacade_from_admin (EmailService.ofConfig cfg) rw sw
                email username
                (cfg.PASSWORD_RESET_URL_BASE ++ "?token=" ++ t ++ "&username=" ++ username)
                oun m ?_
              simpa [send_password_reset, hv, hres] using hm
  · rcases r2 with ⟨oe, ou⟩
    cases hv : (truthy oe && truthy ou)
    · simp [send_reset_success, hv]
    · rcases oe with _ | email
      · simp [truthy] at hv
      · rcases ou with _ | username
        · simp [truthy] at hv
        · rcases hres : (send_password_reset_success_email (EmailService.ofConfig cfg)
              rw sw email username).result with e | b
          · intro m hm
            refine successFacade_from_admin (EmailService.ofConfig cfg) rw sw
              email username m ?_
            simpa [send_reset_success, hv, hres] using hm
          · rcases b with _ | _ <;>
            · intro m hm
              refine successFacade_from_admin (EmailService.ofConfig cfg) rw sw
                email username m ?_
              simpa [send_reset_success, hv, hres] using hm
  · rcases r3 with ⟨ot, os, oh⟩
    rcases hall : pyAll (pyAnd (pyAnd ot os) oh) with e | ok
    · simp [send_custom_email, hall]
    · rcases ok with _ | _
      · simp [send_custom_email, hall]
      · rcases ot with _ | to_email <;> rcases os with _ | subject <;>
          rcases oh with _ | html_content <;>
          simp [send_custom_email, hall, composeMessage, EmailService.ofConfig]
  · simp [test_email, composeMessage, EmailService.ofConfig]

/-- Witness for C10: the concrete message composed by the test endpoint
carries the example configuration's sender address. -/
theorem sender_always_admin_email_witness :
    (composeMessage (EmailService.ofConfig cfgEx) "test@example.com"
        "Test Email - Computer Networks Program"
        "<h1>Test Email</h1><p>This is a test email from the email service.</p>"
        (some "Test Email\n\nThis is a test email from the email service.")).fromAddr
      = "admin@example.com" :=
  (sender_always_admin_email cfgEx rwOk swOk "TOK" ⟨none, none, none⟩ ⟨none, none⟩
      ⟨none, none, none⟩ ⟨none⟩).2.2.2 _ (List.Mem.head _)

/-- Every character of the URL-safe base64 alphabet needs no
percent-encoding. -/
theorem b64Char_urlsafe (n : Nat) : isUrlSafeChar (b64Char n) = true := by
  rcases Nat.lt_or_ge n 62 with h | h
  · exact (by decide : ∀ m, m < 62 → isUrlSafeChar (b64Char m) = true) n h
  · unfold b64Char
    rw [if_neg (by omega), if_neg (by omega), if_neg (by omega)]
    by_cases h62 : n = 62
    · rw [if_pos h62]; decide
    · rw [if_neg h62]; decide

/-- A byte list of length `3*k+2` encodes (unpadded) to `4*k+3`
characters. -/
theorem b64urlEncodeNoPad_length_two_mod_three :
    ∀ (k : Nat) (l : List Nat), l.length = 3 * k + 2 →
      (b64urlEncodeNoPad l).length = 4 * k + 3 := by
  intro k
  induction k with
  | zero =>
    intro l h
    rcases l with _ | ⟨b1, l⟩
    · simp at h
    rcases l with _ | ⟨b2, l⟩
    · simp at h
    rcases l with _ | ⟨b3, rest⟩
    · rfl
    · simp at h
  | succ k ih =>
    intro l h
    rcases l with _ | ⟨b1, l⟩
    · simp only [List.length_nil] at h; omega
    rcases l with _ | ⟨b2, l⟩
    · simp only [List.length_cons, List.length_nil] at h; omega
    rcases l with _ | ⟨b3, rest⟩
    · simp only [List.length_cons, List.length_nil] at h; omega
    have hr : rest.length = 3 * k + 2 := by
      simp only [List.length_cons] at h; omega
    have hstep : b64urlEncodeNoPad (b1 :: b2 :: b3 :: rest)
        = b64Char (b1 / 4) :: b64Char (b1 % 4 * 16 + b2 / 16) ::
          b64Char (b2 % 16 * 4 + b3 / 64) :: b64Char (b3 % 64)
            :: b64urlEncodeNoPad rest := rfl
    rw [hstep]
    simp [ih rest hr]
    omega

/-- Every character the unpadded URL-safe base64 encoder emits is
URL-safe (strong induction on the byte list's length). -/
theorem b64urlEncodeNoPad_urlsafe :
    ∀ (n : Nat) (l : List Nat), l.length ≤ n →
      ∀ c ∈ b64urlEncodeNoPad l, isUrlSafeChar c = true := by
  intro n
  induction n with
  | zero =>
    intro l h c hc
    have : l = [] := List.length_eq_zero.mp (Nat.le_zero.mp h)
    subst this
    simp [b64urlEncodeNoPad] at hc
  | succ n ih =>
    intro l h c hc
    rcases l with _ | ⟨b1, l⟩
    · simp [b64urlEncodeNoPad] at hc
    rcases l with _ | ⟨b2, l⟩
    · simp [b64urlEncodeNoPad] at hc
      rcases hc with rfl | rfl <;> exact b64Char_urlsafe _
    rcases l with _ | ⟨b3, rest⟩
    · simp [b64urlEncodeNoPad] at hc
      rcases hc with rfl | rfl | rfl <;> exact b64Char_urlsafe _
    · simp only [b64urlEncodeNoPad, List.mem_cons] at hc
      rcases hc with rfl | rfl | rfl | rfl | hmem
      · exact b64Char_urlsafe _
      · exact b64Char_urlsafe _
      · exact b64Char_urlsafe _
      · exact b64Char_urlsafe _
      · have hlen : rest.length ≤ n := by simp at h; omega
        exact ih rest hlen c hmem

/-- C6: applied to the 32 bytes drawn from the secure random source,
`generate_reset_token` yields a 43-character string every character of
which is URL-safe (alphanumeric, `-` or `_`), so nothing in it requires
percent-encoding in a URL query parameter. -/
theorem generate_reset_token_spec (bytes : List Nat) (h : bytes.length = 32) :
    (generate_reset_token bytes).length = 43 ∧
    ∀ c ∈ (generate_reset_token bytes).data, isUrlSafeChar c = true := by
  constructor
  · show (String.mk (b64urlEncodeNoPad bytes)).length = 43
    have h32 : bytes.length = 3 * 10 + 2 := by omega
    have := b64urlEncodeNoPad_length_two_mod_three 10 bytes h32
    simpa using this
  · intro c hc
    exact b64urlEncodeNoPad_urlsafe bytes.length bytes (Nat.le_refl _) c hc

/-- Witness for C6 on a concrete 32-byte input. -/
theorem generate_reset_token_spec_witness :
    (List.replicate 32 (0 : Nat)).length = 32 ∧
    ((generate_reset_token (List.replicate 32 (0 : Nat))).length = 43 ∧
      ∀ c ∈ (generate_reset_token (List.replicate 32 (0 : Nat))).data,
        isUrlSafeChar c = true) :=
  ⟨by decide, generate_reset_token_spec (List.replicate 32 (0 : Nat)) (by decide)⟩
